import Mathlib

/-!
Verification of the core of a minimal HTTP/1.0 static file server
(request parsing, path resolution, directory listing, response compilation).

Modelling conventions:
* A Python `str` is modelled as a list of Unicode code points (`PyStr`);
  a Python `bytes` value is modelled as a list of byte values (`Bytes`).
* `str.encode("ascii")` is partial in Python (it raises `UnicodeEncodeError`
  on any code point at or above 128), so it is modelled as an `Option`.
* The filesystem and the MIME-type guessing table are read-only external
  resources; they are passed explicitly as an argument (`FileSystem`,
  `guess : PyStr → Option PyStr`).
* Exceptions escaping a function are modelled as `none` / `Except.error`.
-/

/-- A Python `str`: list of Unicode code points. -/
abbrev PyStr := List Nat

/-- A Python `bytes`: list of byte values. -/
abbrev Bytes := List Nat

/-- Embed an (ASCII) Lean string literal as a `PyStr`. -/
def strP (s : String) : PyStr := s.data.map Char.toNat

/-- Prepend a character to the first piece of a split result. -/
def consHead (c : Nat) : List PyStr → List PyStr
  | [] => [[c]]
  | l :: ls => (c :: l) :: ls

/-- `re.split(r"\r?\n", data)`: split on each LF or CRLF, keeping empty pieces. -/
def splitLines : PyStr → List PyStr
  | [] => [[]]
  | [c] => if c = 10 then [[], []] else [[c]]
  | c1 :: c2 :: rest =>
    if c1 = 10 then [] :: splitLines (c2 :: rest)
    else if c1 = 13 ∧ c2 = 10 then [] :: splitLines rest
    else consHead c1 (splitLines (c2 :: rest))

/-- Python `s.split(" ")`: split at every single space, keeping empty pieces. -/
def splitSp : PyStr → List PyStr
  | [] => [[]]
  | c :: rest => if c = 32 then [] :: splitSp rest else consHead c (splitSp rest)

/-- Python `s.split(": ")`: split at every (left-to-right, non-overlapping)
occurrence of the two-character separator, keeping empty pieces. -/
def splitColonSpace : PyStr → List PyStr
  | [] => [[]]
  | [c] => [[c]]
  | c1 :: c2 :: rest =>
    if c1 = 58 ∧ c2 = 32 then [] :: splitColonSpace rest
    else consHead c1 (splitColonSpace (c2 :: rest))

/-- Number of (left-to-right, non-overlapping) occurrences of `": "`. -/
def sepCount : PyStr → Nat
  | [] => 0
  | [_] => 0
  | c1 :: c2 :: rest =>
    if c1 = 58 ∧ c2 = 32 then sepCount rest + 1
    else sepCount (c2 :: rest)

/-- Split a line at the FIRST occurrence of `": "` (the specification's
description of header splitting), returning the parts before and after it. -/
def findSep : PyStr → Option (PyStr × PyStr)
  | [] => none
  | [_] => none
  | c1 :: c2 :: rest =>
    if c1 = 58 ∧ c2 = 32 then some ([], rest)
    else (findSep (c2 :: rest)).map (fun kv => (c1 :: kv.1, kv.2))

/-- Value of an ASCII hexadecimal digit, if the character is one. -/
def hexDigit? (c : Nat) : Option Nat :=
  if 48 ≤ c ∧ c ≤ 57 then some (c - 48)
  else if 97 ≤ c ∧ c ≤ 102 then some (c - 87)
  else if 65 ≤ c ∧ c ≤ 70 then some (c - 55)
  else none

/-- Percent-decoding of an ASCII string to bytes, as done by
`urllib.parse.unquote_to_bytes`: each `%XX` with two hex digits becomes the
byte `XX`; a `%` not followed by two hex digits passes through literally. -/
def percentDecode : PyStr → Bytes
  | [] => []
  | [c] => [c]
  | [c1, c2] => [c1, c2]
  | c :: a :: b :: rest =>
    if c = 37 then
      match hexDigit? a, hexDigit? b with
      | some x, some y => (16 * x + y) :: percentDecode rest
      | _, _ => 37 :: percentDecode (a :: b :: rest)
    else c :: percentDecode (a :: b :: rest)

/-- Start-byte step of an incremental UTF-8 decoder: the code points emitted
for byte `b` in the ground state, and the successor state
`(pending continuation count, accumulated value, low bound, high bound)`. -/
def utf8Start (b : Nat) : List Nat × Option (Nat × Nat × Nat × Nat) :=
  if b < 128 then ([b], none)
  else if 194 ≤ b ∧ b ≤ 223 then ([], some (1, b - 192, 128, 191))
  else if b = 224 then ([], some (2, 0, 160, 191))
  else if 225 ≤ b ∧ b ≤ 236 then ([], some (2, b - 224, 128, 191))
  else if b = 237 then ([], some (2, 13, 128, 159))
  else if 238 ≤ b ∧ b ≤ 239 then ([], some (2, b - 224, 128, 191))
  else if b = 240 then ([], some (3, 0, 144, 191))
  else if 241 ≤ b ∧ b ≤ 243 then ([], some (3, b - 240, 128, 191))
  else if b = 244 then ([], some (3, 4, 128, 143))
  else ([65533], none)

/-- UTF-8 decoding with replacement (`bytes.decode("utf-8", errors="replace")`):
invalid byte sequences decode to U+FFFD. -/
def utf8DecodeAux : Option (Nat × Nat × Nat × Nat) → Bytes → List Nat
  | none, [] => []
  | some _, [] => [65533]
  | none, b :: rest =>
    (utf8Start b).1 ++ utf8DecodeAux (utf8Start b).2 rest
  | some (need, acc, lo, hi), b :: rest =>
    if lo ≤ b ∧ b ≤ hi then
      if need ≤ 1 then (acc * 64 + (b - 128)) :: utf8DecodeAux none rest
      else utf8DecodeAux (some (need - 1, acc * 64 + (b - 128), 128, 191)) rest
    else 65533 :: ((utf8Start b).1 ++ utf8DecodeAux (utf8Start b).2 rest)

/-- `bytes.decode("utf-8", errors="replace")`. -/
def utf8DecodeReplace (bs : Bytes) : PyStr := utf8DecodeAux none bs

/-- `urllib.parse.unquote(s, encoding=FILESYSTEM_ENCODING)` on an ASCII input
string, with the platform filesystem encoding taken to be UTF-8 (the default
`errors="replace"` policy applies to the decoding of escaped byte runs). -/
def unquote (s : PyStr) : PyStr := utf8DecodeReplace (percentDecode s)

/-- UTF-8 encoding of one code point. -/
def utf8EncodeChar (c : Nat) : Bytes :=
  if c < 128 then [c]
  else if c < 2048 then [192 + c / 64, 128 + c % 64]
  else if c < 65536 then [224 + c / 4096, 128 + c / 64 % 64, 128 + c % 64]
  else [240 + c / 262144, 128 + c / 4096 % 64, 128 + c / 64 % 64, 128 + c % 64]

/-- `str.encode("utf-8")`. -/
def utf8Encode : PyStr → Bytes
  | [] => []
  | c :: rest => utf8EncodeChar c ++ utf8Encode rest

/-- The two ways `Request.__init__` can raise `ValueError` on malformed input:
unpacking the request line and unpacking a header line. -/
inductive ParseError
  | malformedRequestLine
  | malformedHeaderLine
deriving DecidableEq, Repr

/-- The `Request` object: method, percent-decoded path (first character of the
raw path removed), protocol version, and the header dictionary.  The Python
`dict` is modelled as the journal of assignments in program order; lookup is
`dictGet` below (the last assignment to a key wins). -/
structure Request where
  method : PyStr
  path : PyStr
  http_version : PyStr
  headers : List (PyStr × PyStr)
deriving DecidableEq, Repr

/-- Lookup in the header journal: the value of the last assignment to `k`. -/
def dictGet (d : List (PyStr × PyStr)) (k : PyStr) : Option PyStr :=
  (d.reverse.find? (fun e => e.1 == k)).map (fun e => e.2)

/-- The header loop of `Request.__init__`: skip empty lines; each other line
must split into exactly two pieces at `": "` (`key, value = line.split(": ")`),
else `ValueError` (a malformed-header condition). -/
def parseHeaders : List PyStr → Except ParseError (List (PyStr × PyStr))
  | [] => .ok []
  | line :: rest =>
    if line = [] then parseHeaders rest
    else
      match splitColonSpace line with
      | [k, v] => (parseHeaders rest).map (fun d => (k, v) :: d)
      | _ => .error .malformedHeaderLine

/-- `Request.__init__(data)`: split `data` into lines at LF/CRLF; unpack the
first line at single spaces into exactly three fields (else `ValueError`);
strip the first character of the raw path and percent-decode the rest; then
run the header loop. -/
def parse (data : PyStr) : Except ParseError Request :=
  match splitLines data with
  | [] => .error .malformedRequestLine
  | first_line :: headers_lines =>
    match splitSp first_line with
    | [method, rawPath, http_version] =>
      (parseHeaders headers_lines).map (fun hs =>
        { method := method
          path := unquote (rawPath.drop 1)
          http_version := http_version
          headers := hs })
    | _ => .error .malformedRequestLine

/-- The first line of a buffer (as `Request.__init__` sees it). -/
def firstLine (data : PyStr) : PyStr := (splitLines data).headD []

/-- Spec-side description of the header extraction: each non-empty line is
split at the FIRST occurrence of `": "`. -/
def specEntries (lines : List PyStr) : List (PyStr × PyStr) :=
  lines.filterMap (fun l => if l = [] then none else findSep l)

/-- Spec-side description of last-write-wins lookup: a later entry for the
same key shadows every earlier one. -/
def lookupLast : List (PyStr × PyStr) → PyStr → Option PyStr
  | [], _ => none
  | (k, v) :: rest, key =>
    match lookupLast rest key with
    | some w => some w
    | none => if k == key then some v else none

/-- Decimal digits of a natural number, fuel-indexed so that it is structural
(`natStr` below always supplies enough fuel). -/
def natStrAux : Nat → Nat → PyStr
  | 0, _ => []
  | fuel + 1, n =>
    if n < 10 then [48 + n] else natStrAux fuel (n / 10) ++ [48 + n % 10]

/-- `"{0}".format(n)` for a natural number: its decimal representation. -/
def natStr (n : Nat) : PyStr := natStrAux (n + 1) n

/-- `str.encode("ascii")`: succeeds exactly when every code point is below
128 (the bytes then coincide with the code points); otherwise Python raises
`UnicodeEncodeError`, modelled as `none`. -/
def encodeAscii (s : PyStr) : Option Bytes :=
  if s.all (fun c => decide (c < 128)) then some s else none

/-- `compile_response(code, comment, mimetype, body)`: format the head from
the template `"HTTP/1.0 {0} {1}\r\nContent-Type: {2}\r\nContent-Length:
{3}\r\n\r\n"` with the status code, reason phrase, MIME type and the byte
length of the body, encode it as ASCII, and return it paired with the body
(which is required to be bytes already and is passed through unchanged). -/
def compile_response (code : Nat) (comment mimetype : PyStr) (body : Bytes) :
    Option (Bytes × Bytes) :=
  (encodeAscii
      (strP "HTTP/1.0 " ++ natStr code ++ strP " " ++ comment ++
        strP "\r\nContent-Type: " ++ mimetype ++ strP "\r\nContent-Length: " ++
        natStr body.length ++ strP "\r\n\r\n")).map
    (fun head => (head, body))

/-- `http_404(request, message)`: wrap the message in `<h2>` tags, encode the
page as ASCII and compile a `404 Not Found` response with MIME `text/html`. -/
def http_404 (_request : Request) (message : PyStr) : Option (Bytes × Bytes) :=
  (encodeAscii (strP "<h2>" ++ message ++ strP "</h2>")).bind
    (fun body => compile_response 404 (strP "Not Found") (strP "text/html") body)

/-- The read-only filesystem environment used by the resolver:
`os.path.exists`, `os.path.isdir`, `open(path, "rb").read()`, `os.listdir`. -/
structure FileSystem where
  pathExists : PyStr → Bool
  isDir : PyStr → Bool
  readFile : PyStr → Bytes
  listDir : PyStr → List PyStr

/-- `os.path.join(a, b)` for POSIX paths: an absolute second component
discards the first; otherwise the two are joined, inserting `/` unless the
first component is empty or already ends in `/`. -/
def osPathJoin (a b : PyStr) : PyStr :=
  if b.head? = some 47 then b
  else if a = [] ∨ a.getLast? = some 47 then a ++ b
  else a ++ 47 :: b

/-- Python string comparison `s <= t`: lexicographic on code points. -/
def strLe : PyStr → PyStr → Bool
  | [], _ => true
  | _ :: _, [] => false
  | a :: as', b :: bs' =>
    if a < b then true else if b < a then false else strLe as' bs'

/-- Python tuple comparison on `(isFile, name)` pairs: `False < True`, ties
broken by the lexicographic order on names. -/
def fileLe (x y : Bool × PyStr) : Bool :=
  match x.1, y.1 with
  | false, true => true
  | true, false => false
  | _, _ => strLe x.2 y.2

instance fileLeDecidable : DecidableRel (fun x y => fileLe x y = true) :=
  fun x y => instDecidableEqBool (fileLe x y) true

/-- Python `list.sort()` on `(isFile, name)` pairs (a comparison sort for the
total order `fileLe`). -/
def pySort (l : List (Bool × PyStr)) : List (Bool × PyStr) :=
  List.insertionSort (fun x y => fileLe x y = true) l

/-- `send_directory`, sorting step: pair each entry of `os.listdir(path)`
with `not os.path.isdir(os.path.join(path, filename))` and sort. -/
def directoryEntries (fs : FileSystem) (path : PyStr) : List (Bool × PyStr) :=
  pySort ((fs.listDir path).map
    (fun filename => (!(fs.isDir (osPathJoin path filename)), filename)))

/-- `send_directory`, suffixing step: append `/` to each directory name. -/
def directoryListingNames (fs : FileSystem) (path : PyStr) : List PyStr :=
  (directoryEntries fs path).map
    (fun e => e.2 ++ (if e.1 then [] else strP "/"))

/-- `sys.getfilesystemencoding()`, assumed to be UTF-8. -/
def FILESYSTEM_ENCODING : PyStr := strP "utf-8"

/-- Join a list of strings with newline separators (`"\n".join(data)`). -/
def joinNl : List PyStr → PyStr
  | [] => []
  | [l] => l
  | l :: l2 :: rest => l ++ 10 :: joinNl (l2 :: rest)

/-- `send_file(request, path)`: read the whole file, guess its MIME type from
the path (falling back to the literal `"octet/stream"` when the guess fails),
and compile a `200 OK` response. -/
def send_file (fs : FileSystem) (guess : PyStr → Option PyStr)
    (_request : Request) (path : PyStr) : Option (Bytes × Bytes) :=
  compile_response 200 (strP "OK") ((guess path).getD (strP "octet/stream"))
    (fs.readFile path)

/-- `send_directory(request, path)`: list the directory, sort the entries
(directories first, then files, alphabetical within each group), suffix
directory names with `/`, render one charset line followed by one anchor line
per entry, join with newlines, encode with the filesystem encoding, and
compile a `200 OK` response with MIME `text/html`. -/
def send_directory (fs : FileSystem) (_request : Request) (path : PyStr) :
    Option (Bytes × Bytes) :=
  compile_response 200 (strP "OK") (strP "text/html")
    (utf8Encode (joinNl
      ((strP "<meta charset=\"" ++ FILESYSTEM_ENCODING ++ strP "\">") ::
        (directoryListingNames fs path).map
          (fun filename =>
            strP "<div><a href=\"" ++ filename ++ strP "\">" ++ filename ++
              strP "</a></div>"))))

/-- `serve_static(request, directory)`: join the root directory with the
decoded request path, answer 404 when the result does not exist, serve
`index.html` from a directory when present, otherwise a generated listing,
and serve the file contents for a plain file. -/
def serve_static (fs : FileSystem) (guess : PyStr → Option PyStr)
    (request : Request) (directory : PyStr) : Option (Bytes × Bytes) :=
  let path := osPathJoin directory request.path
  if !(fs.pathExists path) then
    http_404 request
      (strP "Path " ++ path ++ strP " doesn" ++ 39 :: strP "t exist")
  else if fs.isDir path then
    let index := osPathJoin path (strP "index.html")
    if fs.pathExists index then send_file fs guess request index
    else send_directory fs request path
  else send_file fs guess request path

/-- Two successive resolutions of the same request against the same
(unchanged) filesystem, as performed by two runs of the accept loop. -/
def resolveTwice (fs : FileSystem) (guess : PyStr → Option PyStr)
    (request : Request) (directory : PyStr) :
    Option (Bytes × Bytes) × Option (Bytes × Bytes) :=
  (serve_static fs guess request directory,
   serve_static fs guess request directory)

/-- Every character of a decimal representation is an ASCII digit. -/
theorem natStrAux_ascii (fuel : Nat) :
    ∀ n : Nat, (natStrAux fuel n).all (fun c => decide (c < 128)) = true := by
  induction fuel with
  | zero => intro n; rfl
  | succ fuel ih =>
    intro n
    unfold natStrAux
    split
    · simp only [List.all_cons, List.all_nil, Bool.and_true, decide_eq_true_eq]
      omega
    · rw [List.all_append, ih (n / 10)]
      simp only [List.all_cons, List.all_nil, Bool.and_true, Bool.true_and,
        decide_eq_true_eq]
      have := Nat.mod_lt n (show 0 < 10 by omega)
      omega

/-- Every character of `natStr n` is an ASCII digit. -/
theorem natStr_ascii (n : Nat) :
    (natStr n).all (fun c => decide (c < 128)) = true :=
  natStrAux_ascii (n + 1) n

/-- Evaluation of `compile_response` when the reason phrase and MIME type are
ASCII: the head is exactly the filled-in template and the body is returned
unchanged. -/
theorem compile_response_some (code : Nat) (comment mimetype : PyStr)
    (body : Bytes)
    (hc : comment.all (fun c => decide (c < 128)) = true)
    (hm : mimetype.all (fun c => decide (c < 128)) = true) :
    compile_response code comment mimetype body =
      some (strP "HTTP/1.0 " ++ natStr code ++ strP " " ++ comment ++
        strP "\r\nContent-Type: " ++ mimetype ++ strP "\r\nContent-Length: " ++
        natStr body.length ++ strP "\r\n\r\n", body) := by
  unfold compile_response encodeAscii
  rw [if_pos]
  · rfl
  · simp only [List.all_append, Bool.and_eq_true]
    exact ⟨⟨⟨⟨⟨⟨⟨⟨by decide, natStr_ascii code⟩, by decide⟩, hc⟩, by decide⟩,
      hm⟩, by decide⟩, natStr_ascii body.length⟩, by decide⟩

/-- A filesystem on which nothing exists (used as a concrete environment). -/
def fsNone : FileSystem :=
  ⟨fun _ => false, fun _ => false, fun _ => [], fun _ => []⟩

/-- A MIME-guessing function that never recognises an extension. -/
def guessNone : PyStr → Option PyStr := fun _ => none

/-- A request whose decoded path is an absolute filesystem path. -/
def reqAbs : Request := ⟨strP "GET", strP "/etc/passwd", strP "HTTP/1.0", []⟩

/-- A request whose decoded path contains the non-ASCII character U+00E9. -/
def reqAccent : Request := ⟨strP "GET", [233], strP "HTTP/1.0", []⟩

/-- C1, counterexample: for the non-ASCII MIME type string `"é"` (code point
233), `compile_response` raises `UnicodeEncodeError` while encoding the head
(modelled as `none`), so it does not return the formatted head. -/
theorem compile_response_nonascii_mime :
    compile_response 200 (strP "OK") [233] [] = none := by rfl

/-- C1 (amended): for every status code, ASCII reason phrase, ASCII MIME type
string and byte body, `compile_response` returns the head
`HTTP/1.0 {code} {reason}\r\nContent-Type: {mime}\r\nContent-Length:
{len(body)}\r\n\r\n` and the body unchanged. -/
theorem compile_response_head_exact (code : Nat) (comment mimetype : PyStr)
    (body : Bytes)
    (hc : comment.all (fun c => decide (c < 128)) = true)
    (hm : mimetype.all (fun c => decide (c < 128)) = true) :
    compile_response code comment mimetype body =
      some (strP "HTTP/1.0 " ++ natStr code ++ strP " " ++ comment ++
        strP "\r\nContent-Type: " ++ mimetype ++ strP "\r\nContent-Length: " ++
        natStr body.length ++ strP "\r\n\r\n", body) :=
  compile_response_some code comment mimetype body hc hm

/-- Witness for C1 at status 200, reason `OK`, MIME `text/html`, body `hi`. -/
theorem compile_response_head_exact_witness :
    (strP "OK").all (fun c => decide (c < 128)) = true ∧
    compile_response 200 (strP "OK") (strP "text/html") [104, 105] =
      some (strP "HTTP/1.0 " ++ natStr 200 ++ strP " " ++ strP "OK" ++
        strP "\r\nContent-Type: " ++ strP "text/html" ++
        strP "\r\nContent-Length: " ++ natStr ([104, 105] : Bytes).length ++
        strP "\r\n\r\n", [104, 105]) :=
  ⟨by decide,
   compile_response_head_exact 200 (strP "OK") (strP "text/html") [104, 105]
     (by decide) (by decide)⟩

/-- C4: whenever the first line of the buffer does not split into exactly
three fields, `Request.__init__` raises the malformed-request-line condition
(`ValueError` from tuple unpacking) and produces no `Request`. -/
theorem parse_malformed_request_line (data : PyStr)
    (h : (splitSp (firstLine data)).length ≠ 3) :
    parse data = .error .malformedRequestLine := by
  cases hd : splitLines data with
  | nil => simp [parse, hd]
  | cons first rest =>
    have hf : splitSp (firstLine data) = splitSp first := by
      simp [firstLine, hd]
    rw [hf] at h
    rcases hs : splitSp first with _ | ⟨a, _ | ⟨b, _ | ⟨c, _ | ⟨d, t⟩⟩⟩⟩
    · simp [parse, hd, hs]
    · simp [parse, hd, hs]
    · simp [parse, hd, hs]
    · exact absurd (by rw [hs]; rfl) h
    · simp [parse, hd, hs]

/-- Witness for C4 on the buffer `"GET\r\n\r\n"` (a one-field request line). -/
theorem parse_malformed_request_line_witness :
    (splitSp (firstLine (strP "GET\r\n\r\n"))).length ≠ 3 ∧
    parse (strP "GET\r\n\r\n") = .error .malformedRequestLine :=
  ⟨by decide, parse_malformed_request_line (strP "GET\r\n\r\n") (by decide)⟩

/-- C9: path resolution is deterministic — two resolutions of the same
request against the same filesystem state return byte-identical responses
(the embedding is a pure function of its arguments, mirroring the absence of
shared mutable state in the source). -/
theorem serve_static_deterministic (fs : FileSystem)
    (guess : PyStr → Option PyStr) (request : Request) (directory : PyStr) :
    (resolveTwice fs guess request directory).1 =
      (resolveTwice fs guess request directory).2 := rfl

/-- C10: when the decoded request path is absolute (begins with `/`),
`os.path.join` discards the root directory entirely, and resolution does not
depend on the root in any way. -/
theorem serve_static_absolute_path_ignores_root (fs : FileSystem)
    (guess : PyStr → Option PyStr) (request : Request) (d1 d2 q : PyStr)
    (h : request.path = 47 :: q) :
    osPathJoin d1 request.path = request.path ∧
    serve_static fs guess request d1 = serve_static fs guess request d2 := by
  have hj : ∀ d : PyStr, osPathJoin d request.path = request.path := by
    intro d; simp [osPathJoin, h]
  refine ⟨hj d1, ?_⟩
  simp only [serve_static, hj d1, hj d2]

/-- Witness for C10: a request for `//etc/passwd` (decoded path
`/etc/passwd`) resolves identically under two different roots. -/
theorem serve_static_absolute_path_ignores_root_witness :
    reqAbs.path = 47 :: strP "etc/passwd" ∧
    (osPathJoin (strP "root") reqAbs.path = reqAbs.path ∧
      serve_static fsNone guessNone reqAbs (strP "root") =
        serve_static fsNone guessNone reqAbs (strP "other")) :=
  ⟨rfl,
   serve_static_absolute_path_ignores_root fsNone guessNone reqAbs
     (strP "root") (strP "other") (strP "etc/passwd") rfl⟩

/-- C5, counterexample: the request `GET /%C3%A9` decodes to the non-ASCII
path `é`; when the candidate does not exist, `http_404` tries to encode
`"<h2>Path root/é doesn't exist</h2>"` as ASCII and raises
`UnicodeEncodeError` (modelled as `none`), so no 404 response is returned
through the normal return path. -/
theorem serve_static_nonascii_404_none :
    parse (strP "GET /%C3%A9 HTTP/1.0\r\n\r\n") = .ok reqAccent ∧
    serve_static fsNone guessNone reqAccent (strP "root") = none :=
  ⟨by rfl, by rfl⟩

/-- C5 (amended): for every request whose candidate path does not exist and
consists solely of ASCII characters, `serve_static` returns, through the
normal return path, a 404 Not Found response with MIME `text/html` and body
exactly `<h2>Path {candidate} doesn't exist</h2>`. -/
theorem serve_static_missing_404 (fs : FileSystem)
    (guess : PyStr → Option PyStr) (request : Request) (directory : PyStr)
    (hne : fs.pathExists (osPathJoin directory request.path) = false)
    (ha : (osPathJoin directory request.path).all (fun c => decide (c < 128)) =
      true) :
    serve_static fs guess request directory =
      some
        (strP "HTTP/1.0 404 Not Found\r\nContent-Type: text/html\r\nContent-Length: " ++
          natStr (strP "<h2>Path " ++ osPathJoin directory request.path ++
            strP " doesn" ++ 39 :: strP "t exist</h2>").length ++
          strP "\r\n\r\n",
        strP "<h2>Path " ++ osPathJoin directory request.path ++
          strP " doesn" ++ 39 :: strP "t exist</h2>") := by
  simp only [serve_static, hne, Bool.not_false, if_true]
  unfold http_404
  have hall : (strP "<h2>" ++ (strP "Path " ++ osPathJoin directory request.path ++
      strP " doesn" ++ 39 :: strP "t exist") ++ strP "</h2>").all
      (fun c => decide (c < 128)) = true := by
    simp only [List.all_append, List.all_cons, Bool.and_eq_true]
    exact ⟨⟨by decide, ⟨⟨⟨by decide, ha⟩, by decide⟩, by decide, by decide⟩⟩,
      by decide⟩
  have henc : encodeAscii (strP "<h2>" ++ (strP "Path " ++
      osPathJoin directory request.path ++ strP " doesn" ++
      39 :: strP "t exist") ++ strP "</h2>") =
      some (strP "<h2>" ++ (strP "Path " ++ osPathJoin directory request.path ++
        strP " doesn" ++ 39 :: strP "t exist") ++ strP "</h2>") := by
    unfold encodeAscii; rw [if_pos hall]
  rw [henc]
  show compile_response 404 (strP "Not Found") (strP "text/html") _ = _
  rw [compile_response_some 404 (strP "Not Found") (strP "text/html") _
    (by decide) (by decide)]
  simp only [List.append_assoc, List.cons_append]
  rfl

/-- A request for the (nonexistent) relative path `nope`. -/
def reqNope : Request := ⟨strP "GET", strP "nope", strP "HTTP/1.0", []⟩

/-- Witness for C5: a request for a missing ASCII path `nope`. -/
theorem serve_static_missing_404_witness :
    fsNone.pathExists (osPathJoin (strP "root") reqNope.path) = false ∧
    serve_static fsNone guessNone reqNope (strP "root") =
      some
        (strP "HTTP/1.0 404 Not Found\r\nContent-Type: text/html\r\nContent-Length: " ++
          natStr (strP "<h2>Path " ++ osPathJoin (strP "root") reqNope.path ++
            strP " doesn" ++ 39 :: strP "t exist</h2>").length ++
          strP "\r\n\r\n",
        strP "<h2>Path " ++ osPathJoin (strP "root") reqNope.path ++
          strP " doesn" ++ 39 :: strP "t exist</h2>") :=
  ⟨by decide,
   serve_static_missing_404 fsNone guessNone reqNope (strP "root")
     (by decide) (by decide)⟩

/-- C8: an existing regular file whose MIME type cannot be guessed is served
with status 200 and MIME type exactly the literal string `octet/stream`. -/
theorem send_file_octet_stream (fs : FileSystem)
    (guess : PyStr → Option PyStr) (request : Request) (directory : PyStr)
    (he : fs.pathExists (osPathJoin directory request.path) = true)
    (hd : fs.isDir (osPathJoin directory request.path) = false)
    (hg : guess (osPathJoin directory request.path) = none) :
    serve_static fs guess request directory =
      some
        (strP "HTTP/1.0 200 OK\r\nContent-Type: octet/stream\r\nContent-Length: " ++
          natStr (fs.readFile (osPathJoin directory request.path)).length ++
          strP "\r\n\r\n",
        fs.readFile (osPathJoin directory request.path)) := by
  simp only [serve_static, he, hd, Bool.not_true, Bool.false_eq_true,
    if_false]
  unfold send_file
  rw [hg, Option.getD_none]
  rw [compile_response_some 200 (strP "OK") (strP "octet/stream") _
    (by decide) (by decide)]
  simp only [List.append_assoc]
  rfl

/-- C6: for an existing directory, `serve_static` serves
`{candidate}/index.html` through `send_file` when that file exists — a 200
response carrying the file contents and the guessed MIME type — and returns
the generated directory listing otherwise. -/
theorem serve_static_directory_index (fs : FileSystem)
    (guess : PyStr → Option PyStr) (request : Request) (directory : PyStr)
    (he : fs.pathExists (osPathJoin directory request.path) = true)
    (hd : fs.isDir (osPathJoin directory request.path) = true) :
    (fs.pathExists
        (osPathJoin (osPathJoin directory request.path) (strP "index.html")) =
          true →
      serve_static fs guess request directory =
        send_file fs guess request
          (osPathJoin (osPathJoin directory request.path)
            (strP "index.html")) ∧
      ∀ mt : PyStr,
        guess (osPathJoin (osPathJoin directory request.path)
          (strP "index.html")) = some mt →
        mt.all (fun c => decide (c < 128)) = true →
        serve_static fs guess request directory =
          some
            (strP "HTTP/1.0 200 OK\r\nContent-Type: " ++ mt ++
              strP "\r\nContent-Length: " ++
              natStr (fs.readFile (osPathJoin
                (osPathJoin directory request.path)
                (strP "index.html"))).length ++ strP "\r\n\r\n",
            fs.readFile (osPathJoin (osPathJoin directory request.path)
              (strP "index.html")))) ∧
    (fs.pathExists
        (osPathJoin (osPathJoin directory request.path) (strP "index.html")) =
          false →
      serve_static fs guess request directory =
        send_directory fs request (osPathJoin directory request.path)) := by
  constructor
  · intro hi
    constructor
    · simp only [serve_static, he, hd, hi, Bool.not_true, Bool.false_eq_true,
        if_false, if_true]
    · intro mt hmt hasc
      simp only [serve_static, he, hd, hi, Bool.not_true, Bool.false_eq_true,
        if_false, if_true]
      unfold send_file
      rw [hmt, Option.getD_some]
      rw [compile_response_some 200 (strP "OK") mt _ (by decide) hasc]
      simp only [List.append_assoc]
      rfl
  · intro hi
    simp only [serve_static, he, hd, hi, Bool.not_true, Bool.false_eq_true,
      if_false, if_true]

/-- A filesystem holding the directory `root/site` with an
`root/site/index.html` inside it. -/
def fsIndex : FileSystem :=
  { pathExists := fun p =>
      p == strP "root/site" || p == strP "root/site/index.html"
    isDir := fun p => p == strP "root/site"
    readFile := fun p =>
      if p == strP "root/site/index.html" then strP "<p>hi</p>" else []
    listDir := fun _ => [] }

/-- A MIME guesser that recognises every name as `text/html`. -/
def guessHtml : PyStr → Option PyStr := fun _ => some (strP "text/html")

/-- A request for the directory path `site`. -/
def reqSite : Request := ⟨strP "GET", strP "site", strP "HTTP/1.0", []⟩

/-- Witness for C6: `root/site` is a directory containing `index.html`, and
the resolver serves that file with status 200 and its guessed MIME type. -/
theorem serve_static_directory_index_witness :
    fsIndex.isDir (osPathJoin (strP "root") reqSite.path) = true ∧
    serve_static fsIndex guessHtml reqSite (strP "root") =
      some
        (strP "HTTP/1.0 200 OK\r\nContent-Type: " ++ strP "text/html" ++
          strP "\r\nContent-Length: " ++
          natStr (fsIndex.readFile (osPathJoin
            (osPathJoin (strP "root") reqSite.path)
            (strP "index.html"))).length ++ strP "\r\n\r\n",
        fsIndex.readFile (osPathJoin (osPathJoin (strP "root") reqSite.path)
          (strP "index.html"))) :=
  ⟨by decide,
   ((serve_static_directory_index fsIndex guessHtml reqSite (strP "root")
       (by decide) (by decide)).1 (by decide)).2 (strP "text/html")
     (by decide) (by decide)⟩

/-- Unfolding of `strLe` on two nonempty strings. -/
theorem strLe_cons (x y : Nat) (xs ys : PyStr) :
    strLe (x :: xs) (y :: ys) = true ↔
      (x < y ∨ (x = y ∧ strLe xs ys = true)) := by
  simp only [strLe]
  split_ifs with h1 h2
  · simp [h1]
  · have hne : ¬(x = y) := by omega
    simp [h1, h2, hne]
  · have heq : x = y := by omega
    simp [h1, heq]

/-- `strLe` is total. -/
theorem strLe_total : ∀ a b : PyStr, strLe a b = true ∨ strLe b a = true
  | [], _ => Or.inl rfl
  | _ :: _, [] => Or.inr rfl
  | x :: xs, y :: ys => by
    rcases Nat.lt_trichotomy x y with hxy | hxy | hxy
    · exact Or.inl ((strLe_cons x y xs ys).2 (Or.inl hxy))
    · rcases strLe_total xs ys with h | h
      · exact Or.inl ((strLe_cons x y xs ys).2 (Or.inr ⟨hxy, h⟩))
      · exact Or.inr ((strLe_cons y x ys xs).2 (Or.inr ⟨hxy.symm, h⟩))
    · exact Or.inr ((strLe_cons y x ys xs).2 (Or.inl hxy))

/-- `strLe` is transitive. -/
theorem strLe_trans : ∀ a b c : PyStr,
    strLe a b = true → strLe b c = true → strLe a c = true
  | [], _, _, _, _ => rfl
  | _ :: _, [], _, h, _ => by simp [strLe] at h
  | _ :: _, _ :: _, [], _, h => by simp [strLe] at h
  | x :: xs, y :: ys, z :: zs, h1, h2 => by
    rcases (strLe_cons x y xs ys).1 h1 with hxy | ⟨hxy, hxs⟩ <;>
      rcases (strLe_cons y z ys zs).1 h2 with hyz | ⟨hyz, hys⟩
    · exact (strLe_cons x z xs zs).2 (Or.inl (by omega))
    · exact (strLe_cons x z xs zs).2 (Or.inl (by omega))
    · exact (strLe_cons x z xs zs).2 (Or.inl (by omega))
    · exact (strLe_cons x z xs zs).2
        (Or.inr ⟨by omega, strLe_trans xs ys zs hxs hys⟩)

/-- The pair order used by the directory sort is total. -/
instance : IsTotal (Bool × PyStr) (fun x y => fileLe x y = true) := by
  constructor
  intro x y
  obtain ⟨b1, s1⟩ := x
  obtain ⟨b2, s2⟩ := y
  cases b1 <;> cases b2 <;> simp [fileLe] <;> exact strLe_total s1 s2

/-- The pair order used by the directory sort is transitive. -/
instance : IsTrans (Bool × PyStr) (fun x y => fileLe x y = true) := by
  constructor
  intro x y z h1 h2
  obtain ⟨b1, s1⟩ := x
  obtain ⟨b2, s2⟩ := y
  obtain ⟨b3, s3⟩ := z
  cases b1 <;> cases b2 <;> cases b3 <;> simp [fileLe] at h1 h2 ⊢ <;>
    exact strLe_trans s1 s2 s3 h1 h2

/-- The filesystem of the specification's ordering example: directory `d`
holding entries `b.txt`, `A`, `a.txt`, `Z`, of which `A` and `Z` are
directories. -/
def exFs : FileSystem :=
  { pathExists := fun _ => true
    isDir := fun p => p == strP "d/A" || p == strP "d/Z"
    readFile := fun _ => []
    listDir := fun _ => [strP "b.txt", strP "A", strP "a.txt", strP "Z"] }

/-- C7: the generated listing presents the `(isFile, name)` pairs sorted
ascending in the pair order (directories before files, names lexicographic
within each group), as a permutation of the enumerated entries, with `/`
appended to each directory name; on the example entries
`{b.txt, A/, a.txt, Z/}` the rendered names are
`[A/, Z/, a.txt, b.txt]`. -/
theorem send_directory_sorted (fs : FileSystem) (path : PyStr) :
    List.Sorted (fun x y => fileLe x y = true) (directoryEntries fs path) ∧
    List.Perm (directoryEntries fs path)
      ((fs.listDir path).map
        (fun f => (!(fs.isDir (osPathJoin path f)), f))) ∧
    directoryListingNames fs path =
      (directoryEntries fs path).map
        (fun e => e.2 ++ (if e.1 then [] else strP "/")) ∧
    directoryListingNames exFs (strP "d") =
      [strP "A/", strP "Z/", strP "a.txt", strP "b.txt"] := by
  refine ⟨?_, ?_, rfl, by decide⟩
  · exact List.sorted_insertionSort _ _
  · exact List.perm_insertionSort _ _

/-- One CR LF-terminated line that contains no CR or LF becomes the first
piece of the line split. -/
theorem splitLines_append : ∀ (l rest : PyStr),
    (∀ c ∈ l, c ≠ 10 ∧ c ≠ 13) →
    splitLines (l ++ 13 :: 10 :: rest) = l :: splitLines rest
  | [], rest, _ => by simp [splitLines]
  | [c], rest, h => by
    have hc := h c (by simp)
    simp [splitLines, hc.1, hc.2, consHead]
  | c :: d :: l, rest, h => by
    have hc := h c (by simp)
    have hrec := splitLines_append (d :: l) rest
      (fun x hx => h x (by simp at hx ⊢; tauto))
    simp only [List.cons_append] at hrec ⊢
    simp [splitLines, hc.1, hc.2, hrec, consHead]

/-- A space-free token followed by a space becomes the first piece of the
space split. -/
theorem splitSp_append : ∀ (t rest : PyStr), (∀ c ∈ t, c ≠ 32) →
    splitSp (t ++ 32 :: rest) = t :: splitSp rest
  | [], rest, _ => by simp [splitSp]
  | c :: t, rest, h => by
    have hc := h c (by simp)
    have hrec := splitSp_append t rest (fun x hx => h x (by simp [hx]))
    simp [splitSp, hc, hrec, consHead]

/-- A space-free string does not split at all. -/
theorem splitSp_nosp : ∀ t : PyStr, (∀ c ∈ t, c ≠ 32) → splitSp t = [t]
  | [], _ => rfl
  | c :: t, h => by
    have hc := h c (by simp)
    have hrec := splitSp_nosp t (fun x hx => h x (by simp [hx]))
    simp [splitSp, hc, hrec, consHead]

/-- Evaluation of `parse` on a buffer whose first line is three
space-separated tokens terminated by CRLF: the three fields are unpacked and
the header loop runs on the remaining lines. -/
theorem parse_split (m p v rest : PyStr)
    (hm : ∀ c ∈ m, c ≠ 32 ∧ c ≠ 10 ∧ c ≠ 13)
    (hp : ∀ c ∈ p, c ≠ 32 ∧ c ≠ 10 ∧ c ≠ 13)
    (hv : ∀ c ∈ v, c ≠ 32 ∧ c ≠ 10 ∧ c ≠ 13) :
    parse (m ++ 32 :: p ++ 32 :: v ++ 13 :: 10 :: rest) =
      (parseHeaders (splitLines rest)).map (fun hs =>
        { method := m, path := unquote (p.drop 1), http_version := v,
          headers := hs }) := by
  have hline : splitLines ((m ++ 32 :: p ++ 32 :: v) ++ 13 :: 10 :: rest) =
      (m ++ 32 :: p ++ 32 :: v) :: splitLines rest := by
    apply splitLines_append
    intro c hc
    simp only [List.mem_append, List.mem_cons] at hc
    rcases hc with (hc | (hc | hc)) | (hc | hc)
    · exact ⟨(hm c hc).2.1, (hm c hc).2.2⟩
    · omega
    · exact ⟨(hp c hc).2.1, (hp c hc).2.2⟩
    · omega
    · exact ⟨(hv c hc).2.1, (hv c hc).2.2⟩
  have hsp : splitSp (m ++ 32 :: p ++ 32 :: v) = [m, p, v] := by
    rw [List.append_assoc, List.cons_append,
      splitSp_append m _ (fun c hc => (hm c hc).1),
      splitSp_append p _ (fun c hc => (hp c hc).1),
      splitSp_nosp v (fun c hc => (hv c hc).1)]
  simp only [parse, hline, hsp]

/-- C2, counterexample: the buffer `"GET / HTTP/1.0\r\nX\r\n\r\n"` has a
first line of exactly three (whitespace-)delimited tokens, yet `parse`
raises on the header line `X` and produces no `Request` at all. -/
theorem parse_three_token_line_no_request :
    splitSp (firstLine (strP "GET / HTTP/1.0\r\nX\r\n\r\n")) =
      [strP "GET", strP "/", strP "HTTP/1.0"] ∧
    parse (strP "GET / HTTP/1.0\r\nX\r\n\r\n") =
      .error .malformedHeaderLine :=
  ⟨by rfl, by rfl⟩

/-- C2 (amended): for every buffer of the form `m + " " + p + " " + v +
"\r\n" + rest` whose three tokens contain no space, CR or LF and whose raw
path `p` begins with `/`, `parse` unpacks exactly those three fields —
method `m`, version `v`, and path `p` stripped of its leading `/` and
percent-decoded — and returns the `Request` built from them provided the
header lines of `rest` parse. -/
theorem parse_request_line_fields (m q v rest : PyStr)
    (hm : ∀ c ∈ m, c ≠ 32 ∧ c ≠ 10 ∧ c ≠ 13)
    (hq : ∀ c ∈ q, c ≠ 32 ∧ c ≠ 10 ∧ c ≠ 13)
    (hv : ∀ c ∈ v, c ≠ 32 ∧ c ≠ 10 ∧ c ≠ 13) :
    parse (m ++ 32 :: (47 :: q) ++ 32 :: v ++ 13 :: 10 :: rest) =
      (parseHeaders (splitLines rest)).map (fun hs =>
        { method := m, path := unquote q, http_version := v,
          headers := hs }) := by
  rw [parse_split m (47 :: q) v rest hm ?hq hv]
  case hq =>
    intro c hc
    rcases List.mem_cons.1 hc with rfl | hc
    · omega
    · exact hq c hc
  rfl

/-- Witness for C2 on `"GET /a%20b HTTP/1.0\r\nHost: x\r\n\r\n"`. -/
theorem parse_request_line_fields_witness :
    (∀ c ∈ strP "GET", c ≠ 32 ∧ c ≠ 10 ∧ c ≠ 13) ∧
    parse (strP "GET" ++ 32 :: (47 :: strP "a%20b") ++ 32 :: strP "HTTP/1.0" ++
        13 :: 10 :: strP "Host: x\r\n\r\n") =
      (parseHeaders (splitLines (strP "Host: x\r\n\r\n"))).map (fun hs =>
        { method := strP "GET", path := unquote (strP "a%20b"),
          http_version := strP "HTTP/1.0", headers := hs }) :=
  ⟨by decide,
   parse_request_line_fields (strP "GET") (strP "a%20b") (strP "HTTP/1.0")
     (strP "Host: x\r\n\r\n") (by decide) (by decide) (by decide)⟩

/-- A line with no `": "` occurrence neither splits nor has a first
separator. -/
theorem sepCount_zero : ∀ l : PyStr,
    sepCount l = 0 → splitColonSpace l = [l] ∧ findSep l = none
  | [], _ => ⟨rfl, rfl⟩
  | [_], _ => ⟨rfl, rfl⟩
  | c1 :: c2 :: rest, h => by
    by_cases hcs : c1 = 58 ∧ c2 = 32
    · simp [sepCount, hcs] at h
    · have h' : sepCount (c2 :: rest) = 0 := by
        simpa [sepCount, hcs] using h
      have ih := sepCount_zero (c2 :: rest) h'
      constructor
      · simp [splitColonSpace, hcs, ih.1, consHead]
      · simp [findSep, hcs, ih.2]

/-- A line with exactly one `": "` occurrence splits into exactly the two
pieces around its first (and only) separator. -/
theorem sepCount_one : ∀ l : PyStr, sepCount l = 1 →
    ∃ k w, findSep l = some (k, w) ∧ splitColonSpace l = [k, w]
  | [], h => by simp [sepCount] at h
  | [c], h => by simp [sepCount] at h
  | c1 :: c2 :: rest, h => by
    by_cases hcs : c1 = 58 ∧ c2 = 32
    · have h0 : sepCount rest = 0 := by
        have := h
        simp [sepCount, hcs] at this
        exact this
      obtain ⟨hsplit, -⟩ := sepCount_zero rest h0
      refine ⟨[], rest, ?_, ?_⟩
      · simp [findSep, hcs]
      · simp [splitColonSpace, hcs, hsplit]
    · have h1 : sepCount (c2 :: rest) = 1 := by
        simpa [sepCount, hcs] using h
      obtain ⟨k, w, hf, hs⟩ := sepCount_one (c2 :: rest) h1
      refine ⟨c1 :: k, w, ?_, ?_⟩
      · simp [findSep, hcs, hf]
      · simp [splitColonSpace, hcs, hs, consHead]

/-- When every non-empty header line has exactly one `": "` occurrence, the
header loop succeeds and collects precisely the pairs obtained by splitting
each non-empty line at its first separator, in line order. -/
theorem parseHeaders_spec : ∀ lines : List PyStr,
    (∀ l ∈ lines, l ≠ [] → sepCount l = 1) →
    parseHeaders lines = .ok (specEntries lines)
  | [], _ => rfl
  | line :: rest, h => by
    have ih := parseHeaders_spec rest (fun l hl => h l (by simp [hl]))
    by_cases hempty : line = []
    · simp [parseHeaders, specEntries, hempty, ih]
    · obtain ⟨k, w, hf, hs⟩ :=
        sepCount_one line (h line (by simp) hempty)
      simp [parseHeaders, specEntries, hempty, hs, hf, ih]
      rfl

/-- The dictionary lookup (last assignment in the journal) agrees with the
spec-side shadowing description: a later entry for a key wins over every
earlier one. -/
theorem dictGet_lookupLast : ∀ (d : List (PyStr × PyStr)) (k : PyStr),
    dictGet d k = lookupLast d k
  | [], _ => rfl
  | (k0, v0) :: rest, k => by
    have ih := dictGet_lookupLast rest k
    unfold dictGet at ih ⊢
    unfold lookupLast
    rw [List.reverse_cons, List.find?_append, ← ih]
    cases hfind : rest.reverse.find? (fun e => e.1 == k) with
    | some e => simp [hfind]
    | none =>
      by_cases hk : (k0 == k) = true
      · simp [hfind, List.find?, hk]
      · simp [hfind, List.find?, hk]

/-- C3, counterexample: the header line `"A: b: c"` contains the separator
`": "` (twice), but instead of splitting at the first occurrence the code
unpacks `line.split(": ")` — three pieces — and raises `ValueError`, so no
`Request` with `headers["A"] == "b: c"` is produced. -/
theorem parse_double_separator_error :
    sepCount (strP "A: b: c") = 2 ∧
    parse (strP "GET / HTTP/1.0\r\nA: b: c\r\n\r\n") =
      .error .malformedHeaderLine :=
  ⟨by rfl, by rfl⟩

/-- C3 (amended): when every non-empty header line contains exactly one
occurrence of `": "`, `parse` succeeds and its header mapping consists of
each such line split at that (first) occurrence into `(key, value)`, with a
later line for the same key shadowing every earlier one on lookup. -/
theorem parse_headers_first_sep_last_wins (m q v rest : PyStr)
    (hm : ∀ c ∈ m, c ≠ 32 ∧ c ≠ 10 ∧ c ≠ 13)
    (hq : ∀ c ∈ q, c ≠ 32 ∧ c ≠ 10 ∧ c ≠ 13)
    (hv : ∀ c ∈ v, c ≠ 32 ∧ c ≠ 10 ∧ c ≠ 13)
    (hsep : ∀ l ∈ splitLines rest, l ≠ [] → sepCount l = 1) :
    parse (m ++ 32 :: (47 :: q) ++ 32 :: v ++ 13 :: 10 :: rest) =
      .ok { method := m, path := unquote q, http_version := v,
            headers := specEntries (splitLines rest) } ∧
    ∀ key, dictGet (specEntries (splitLines rest)) key =
      lookupLast (specEntries (splitLines rest)) key := by
  constructor
  · have hq47 : ∀ c ∈ (47 :: q : PyStr), c ≠ 32 ∧ c ≠ 10 ∧ c ≠ 13 := by
      intro c hc
      rcases List.mem_cons.1 hc with rfl | hc
      · omega
      · exact hq c hc
    rw [parse_split m (47 :: q) v rest hm hq47 hv,
      parseHeaders_spec (splitLines rest) hsep]
    rfl
  · intro key
    exact dictGet_lookupLast _ key

/-- Witness for C3 on two header lines with the same key `A`: the collected
entries are both declared pairs and lookup returns the later value `2`. -/
theorem parse_headers_first_sep_last_wins_witness :
    (∀ l ∈ splitLines (strP "A: 1\r\nA: 2\r\n\r\n"), l ≠ [] →
      sepCount l = 1) ∧
    parse (strP "GET" ++ 32 :: (47 :: strP "x") ++ 32 :: strP "HTTP/1.0" ++
        13 :: 10 :: strP "A: 1\r\nA: 2\r\n\r\n") =
      .ok { method := strP "GET", path := unquote (strP "x"),
            http_version := strP "HTTP/1.0",
            headers := specEntries (splitLines (strP "A: 1\r\nA: 2\r\n\r\n")) } ∧
    dictGet (specEntries (splitLines (strP "A: 1\r\nA: 2\r\n\r\n")))
        (strP "A") = some (strP "2") :=
  ⟨by decide,
   (parse_headers_first_sep_last_wins (strP "GET") (strP "x")
      (strP "HTTP/1.0") (strP "A: 1\r\nA: 2\r\n\r\n") (by decide) (by decide)
      (by decide) (by decide)).1,
   by decide⟩

/-- A filesystem holding the single regular file `root/data.bin`. -/
def fsFile : FileSystem :=
  { pathExists := fun p => p == strP "root/data.bin"
    isDir := fun _ => false
    readFile := fun p => if p == strP "root/data.bin" then [0, 255, 7] else []
    listDir := fun _ => [] }

/-- A request for the file path `data.bin`. -/
def reqData : Request := ⟨strP "GET", strP "data.bin", strP "HTTP/1.0", []⟩

/-- Witness for C8: a binary file with an unguessable extension is served
with MIME type exactly `octet/stream`. -/
theorem send_file_octet_stream_witness :
    fsFile.pathExists (osPathJoin (strP "root") reqData.path) = true ∧
    serve_static fsFile guessNone reqData (strP "root") =
      some
        (strP "HTTP/1.0 200 OK\r\nContent-Type: octet/stream\r\nContent-Length: " ++
          natStr (fsFile.readFile
            (osPathJoin (strP "root") reqData.path)).length ++
          strP "\r\n\r\n",
        fsFile.readFile (osPathJoin (strP "root") reqData.path)) :=
  ⟨by decide,
   send_file_octet_stream fsFile guessNone reqData (strP "root")
     (by decide) (by decide) (by decide)⟩
